import Mathlib

/-!
Verification of the device/queue-family selection logic of VKTriangle
(src/Main.cpp), shallowly embedded in Lean 4.

The embedding models:
* `QueueFamilyProperties` / `PhysicalDevice` — the driver-reported data that
  `vkGetPhysicalDeviceQueueFamilyProperties` returns for a device
  (a device is identified with its queue-family list, the only attribute
  the selection logic reads);
* `findQueueFamily` — Main.cpp lines 296–313;
* `isPhyiscalDeviceSuitable` — Main.cpp lines 281–289 (name kept with the
  source's spelling);
* `findOptimalPhysicalDevice` — Main.cpp lines 268–279;
* `getPhysicalDevice` — Main.cpp lines 150–163, with the driver call
  abstracted as an explicit device-list argument;
* `createLogicalDevice` — the queue-family index computed at Main.cpp
  line 166 and passed as `queueFamilyIndex` at line 171;
* `runProgram` — the bootstrap sequence of `run` (lines 41–46),
  `initVulkan` (67–72), `cleanup` (80–88) and `main` (334–347), as a trace
  of resource acquire/release events over an explicit driver world.
-/

/-- Queue capability bit `VK_QUEUE_GRAPHICS_BIT = 0x00000001`. -/
def VK_QUEUE_GRAPHICS_BIT : Nat := 1

/-- Queue capability bit `VK_QUEUE_COMPUTE_BIT = 0x00000002`. -/
def VK_QUEUE_COMPUTE_BIT : Nat := 2

/-- Queue capability bit `VK_QUEUE_TRANSFER_BIT = 0x00000004`. -/
def VK_QUEUE_TRANSFER_BIT : Nat := 4

/-- Queue capability bit `VK_QUEUE_SPARSE_BINDING_BIT = 0x00000008`. -/
def VK_QUEUE_SPARSE_BINDING_BIT : Nat := 8

/-- One queue-family descriptor, as reported by the driver: the fields of
`VkQueueFamilyProperties` that the program reads (`queueFlags`,
`queueCount`). -/
structure QueueFamilyProperties where
  queueFlags : Nat
  queueCount : Nat
deriving DecidableEq, Repr

/-- A physical device, identified with the queue-family list the driver
reports for it (`vkGetPhysicalDeviceQueueFamilyProperties`), the only
data the selection logic reads. -/
structure PhysicalDevice where
  queueFamilies : List QueueFamilyProperties
deriving DecidableEq, Repr

/-- The loop body of `findQueueFamily` (Main.cpp lines 303–312): walk the
queue families keeping a running `index`; on the first family with
`queueCount > 0 && (queueFlags & familyFlags)` (C++ truthiness of the
bitwise AND, i.e. a nonzero intersection) return `index`; return `-1`
after the loop. -/
def findQueueFamilyAux (familyFlags : Nat) : List QueueFamilyProperties → Int → Int
  | [], _ => -1
  | qf :: qfs, index =>
    if 0 < qf.queueCount ∧ qf.queueFlags &&& familyFlags ≠ 0 then index
    else findQueueFamilyAux familyFlags qfs (index + 1)

/-- `findQueueFamily` (Main.cpp lines 296–313): index of the first queue
family whose `queueCount > 0` and whose `queueFlags & familyFlags` is
nonzero; `-1` if none. -/
def findQueueFamily (phyDevice : PhysicalDevice) (familyFlags : Nat) : Int :=
  findQueueFamilyAux familyFlags phyDevice.queueFamilies 0

/-- The qualification test the code implements for one family
(Main.cpp line 306): `queueCount > 0` and nonzero bitwise intersection
of `queueFlags` with the requirement mask. -/
def overlapQualifies (familyFlags : Nat) (qf : QueueFamilyProperties) : Prop :=
  0 < qf.queueCount ∧ qf.queueFlags &&& familyFlags ≠ 0

instance (familyFlags : Nat) (qf : QueueFamilyProperties) :
    Decidable (overlapQualifies familyFlags qf) := by
  unfold overlapQualifies
  infer_instance

/-- The qualification test the spec states for one family
(spec §4.1 step 3): `count > 0 AND (capabilities & requirement) ==
requirement`, i.e. the capability set is a superset of the requirement
mask.  Stated from the spec's words, for comparison with
`overlapQualifies`. -/
def specQualifies (requirement : Nat) (qf : QueueFamilyProperties) : Prop :=
  0 < qf.queueCount ∧ qf.queueFlags &&& requirement = requirement

instance (requirement : Nat) (qf : QueueFamilyProperties) :
    Decidable (specQualifies requirement qf) := by
  unfold specQualifies
  infer_instance

/-- Position of the first family passing the implemented test, if any. -/
def firstQualifyingIndex (familyFlags : Nat) :
    List QueueFamilyProperties → Option Nat
  | [] => none
  | qf :: qfs =>
    if overlapQualifies familyFlags qf then some 0
    else (firstQualifyingIndex familyFlags qfs).map (fun i => i + 1)

theorem findQueueFamilyAux_eq (familyFlags : Nat) :
    ∀ (qfs : List QueueFamilyProperties) (k : Int),
      findQueueFamilyAux familyFlags qfs k =
        match firstQualifyingIndex familyFlags qfs with
        | some i => k + i
        | none => -1 := by
  intro qfs
  induction qfs with
  | nil => intro k; simp [findQueueFamilyAux, firstQualifyingIndex]
  | cons qf qfs ih =>
    intro k
    by_cases hq : overlapQualifies familyFlags qf
    · simp [findQueueFamilyAux, firstQualifyingIndex, hq, overlapQualifies] at *
      simp [hq.1, hq.2]
    · have hq' : ¬ (0 < qf.queueCount ∧ qf.queueFlags &&& familyFlags ≠ 0) := hq
      simp only [findQueueFamilyAux, firstQualifyingIndex, if_neg hq', if_neg hq]
      rw [ih (k + 1)]
      cases h : firstQualifyingIndex familyFlags qfs with
      | none => simp
      | some i => simp; ring

theorem findQueueFamily_eq (d : PhysicalDevice) (familyFlags : Nat) :
    findQueueFamily d familyFlags =
      match firstQualifyingIndex familyFlags d.queueFamilies with
      | some i => (i : Int)
      | none => -1 := by
  unfold findQueueFamily
  rw [findQueueFamilyAux_eq]
  cases h : firstQualifyingIndex familyFlags d.queueFamilies <;> simp

/-- `isPhyiscalDeviceSuitable` (Main.cpp lines 281–289, name as in the
source): a device is suitable iff `findQueueFamily` with the mask
`VK_QUEUE_GRAPHICS_BIT | VK_QUEUE_TRANSFER_BIT` is not negative. -/
def isPhyiscalDeviceSuitable (phyDevice : PhysicalDevice) : Bool :=
  if findQueueFamily phyDevice
      (VK_QUEUE_GRAPHICS_BIT ||| VK_QUEUE_TRANSFER_BIT) < 0 then false
  else true

/-- `findOptimalPhysicalDevice` (Main.cpp lines 268–279): scan the device
list in order, return the first suitable device; the C++ bool-plus-out-
parameter convention is rendered as `Option`. -/
def findOptimalPhysicalDevice : List PhysicalDevice → Option PhysicalDevice
  | [] => none
  | d :: ds =>
    if isPhyiscalDeviceSuitable d then some d
    else findOptimalPhysicalDevice ds

/-- The spec's `selectDevice` (spec §4.1), as the code realises it:
`findOptimalPhysicalDevice` generalised over the requirement mask
(the source hard-codes `VK_QUEUE_GRAPHICS_BIT | VK_QUEUE_TRANSFER_BIT`
inside `isPhyiscalDeviceSuitable`), paired with the matching queue-family
index that `findQueueFamily` reports for the chosen device.  The
per-device acceptance test is the source's: `findQueueFamily` not
negative. -/
def selectDevice (requirement : Nat) :
    List PhysicalDevice → Option (PhysicalDevice × Int)
  | [] => none
  | d :: ds =>
    if findQueueFamily d requirement < 0 then selectDevice requirement ds
    else some (d, findQueueFamily d requirement)

/-- `selectDevice` at the source's fixed mask agrees with
`findOptimalPhysicalDevice` on the chosen device. -/
theorem selectDevice_eq_findOptimal (ds : List PhysicalDevice) :
    Option.map Prod.fst
        (selectDevice (VK_QUEUE_GRAPHICS_BIT ||| VK_QUEUE_TRANSFER_BIT) ds) =
      findOptimalPhysicalDevice ds := by
  induction ds with
  | nil => rfl
  | cons d ds ih =>
    simp only [selectDevice, findOptimalPhysicalDevice, isPhyiscalDeviceSuitable]
    by_cases h : findQueueFamily d (VK_QUEUE_GRAPHICS_BIT ||| VK_QUEUE_TRANSFER_BIT) < 0
    · simp [h, ih]
    · simp [h]

/-- The error taxonomy of the bootstrap sequence (spec §7); each kind
corresponds to one `throw std::runtime_error` site in Main.cpp. -/
inductive BootstrapError where
  | ValidationLayerUnavailable
  | InstanceCreationFailed
  | DebugCallbackInstallFailed
  | NoGPUFound
  | NoSuitableDevice
  | LogicalDeviceCreationFailed
deriving DecidableEq, Repr

/-- `getPhysicalDevice` (Main.cpp lines 150–163) with the driver
enumeration abstracted as an explicit device list: throw if the list is
empty (line 154), throw `NoSuitableDevice` if `findOptimalPhysicalDevice`
fails (line 161), otherwise return the selected device. -/
def getPhysicalDevice (phyDevices : List PhysicalDevice) :
    Except BootstrapError PhysicalDevice :=
  if phyDevices.length = 0 then .error .NoGPUFound
  else
    match findOptimalPhysicalDevice phyDevices with
    | none => .error .NoSuitableDevice
    | some d => .ok d

/-- `createLogicalDevice` (Main.cpp lines 165–197), restricted to the value
it computes from the selected device: the `index` of line 166
(`findQueueFamily(m_phyDevice, VK_QUEUE_GRAPHICS_BIT)`), which line 171
passes as `queueCreateInfo.queueFamilyIndex` to `vkCreateDevice`. -/
def createLogicalDevice (phyDevice : PhysicalDevice) : Int :=
  findQueueFamily phyDevice VK_QUEUE_GRAPHICS_BIT

/-- `enableValidationLayers` (Main.cpp lines 15–19): `true` in the
non-`NDEBUG` build modelled here. -/
def enableValidationLayers : Bool := true

/-- Resource acquisition/release events observable in the bootstrap
sequence: the window (line 64), instance (line 130), debug callback
(line 145) and logical device (line 194) acquisitions, and the
destructions in `cleanup` (lines 82–87). -/
inductive ResourceEvent where
  | AcquireWindow
  | AcquireInstance
  | AcquireCallback
  | AcquireDevice
  | ReleaseDevice
  | ReleaseCallback
  | ReleaseInstance
  | ReleaseWindow
deriving DecidableEq, Repr

/-- Whether an event is a release. -/
def ResourceEvent.isRelease : ResourceEvent → Bool
  | .ReleaseDevice => true
  | .ReleaseCallback => true
  | .ReleaseInstance => true
  | .ReleaseWindow => true
  | _ => false

/-- The driver-dependent outcomes the bootstrap sequence branches on:
whether the requested validation layers are present
(`checkValidationLayerSupport`, lines 244–266), whether
`vkCreateInstance`, `CreateDebugReportCallbackEXT` and `vkCreateDevice`
succeed, and the enumerated physical devices. -/
structure DriverWorld where
  validationLayersAvailable : Bool
  instanceCreationSucceeds : Bool
  callbackCreationSucceeds : Bool
  phyDevices : List PhysicalDevice
  deviceCreationSucceeds : Bool
deriving DecidableEq, Repr

/-- `createInstance` (Main.cpp lines 94–133) as an event trace: throw if
validation layers are requested but unavailable (line 98) or
`vkCreateInstance` fails (line 131); otherwise the instance is acquired. -/
def createInstance (w : DriverWorld) :
    Except BootstrapError (List ResourceEvent) :=
  if enableValidationLayers && !w.validationLayersAvailable then
    .error .ValidationLayerUnavailable
  else if !w.instanceCreationSucceeds then .error .InstanceCreationFailed
  else .ok [.AcquireInstance]

/-- `createDebugCallback` (Main.cpp lines 136–148): no-op when validation
is disabled (line 137), throw if installation fails (line 146), otherwise
the callback is acquired. -/
def createDebugCallback (w : DriverWorld) :
    Except BootstrapError (List ResourceEvent) :=
  if !enableValidationLayers then .ok []
  else if !w.callbackCreationSucceeds then .error .DebugCallbackInstallFailed
  else .ok [.AcquireCallback]

/-- The `vkCreateDevice` call of `createLogicalDevice` (Main.cpp
line 194) as an event trace: throw on failure, otherwise the logical
device is acquired. -/
def createLogicalDeviceStep (w : DriverWorld) :
    Except BootstrapError (List ResourceEvent) :=
  if !w.deviceCreationSucceeds then .error .LogicalDeviceCreationFailed
  else .ok [.AcquireDevice]

/-- The trace `cleanup` emits (Main.cpp lines 80–88): destroy the logical
device, the debug callback, the instance, then the window. -/
def cleanupTrace : List ResourceEvent :=
  [.ReleaseDevice, .ReleaseCallback, .ReleaseInstance, .ReleaseWindow]

/-- The whole program (`main` calling `run`, Main.cpp lines 41–46 and
334–347): `initWindow` acquires the window, `initVulkan` runs
`createInstance`, `createDebugCallback`, `getPhysicalDevice`,
`createLogicalDevice` in order, then `mainLoop` (no resource events) and
`cleanup`.  A thrown error propagates out of `run` to the catch block in
`main` (lines 340–343), which prints and returns: `cleanup` is NOT
reached on that path, exactly as in the source. -/
def runProgram (w : DriverWorld) :
    Except BootstrapError Unit × List ResourceEvent :=
  let t0 : List ResourceEvent := [.AcquireWindow]
  match createInstance w with
  | .error e => (.error e, t0)
  | .ok t1 =>
    match createDebugCallback w with
    | .error e => (.error e, t0 ++ t1)
    | .ok t2 =>
      match getPhysicalDevice w.phyDevices with
      | .error e => (.error e, t0 ++ t1 ++ t2)
      | .ok _ =>
        match createLogicalDeviceStep w with
        | .error e => (.error e, t0 ++ t1 ++ t2)
        | .ok t3 => (.ok (), t0 ++ t1 ++ t2 ++ t3 ++ cleanupTrace)

theorem firstQualifyingIndex_none_iff (familyFlags : Nat)
    (qfs : List QueueFamilyProperties) :
    firstQualifyingIndex familyFlags qfs = none ↔
      ∀ qf ∈ qfs, ¬ overlapQualifies familyFlags qf := by
  induction qfs with
  | nil => simp [firstQualifyingIndex]
  | cons qf qfs ih =>
    by_cases hq : overlapQualifies familyFlags qf
    · simp [firstQualifyingIndex, hq]
    · simp [firstQualifyingIndex, hq, ih]

theorem firstQualifyingIndex_some (familyFlags : Nat) :
    ∀ (qfs : List QueueFamilyProperties) (i : Nat),
      firstQualifyingIndex familyFlags qfs = some i →
      ∃ h : i < qfs.length,
        overlapQualifies familyFlags (qfs.get ⟨i, h⟩) ∧
        ∀ (j : Nat) (hj : j < qfs.length), j < i →
          ¬ overlapQualifies familyFlags (qfs.get ⟨j, hj⟩) := by
  intro qfs
  induction qfs with
  | nil => intro i h; simp [firstQualifyingIndex] at h
  | cons qf qfs ih =>
    intro i hi
    by_cases hq : overlapQualifies familyFlags qf
    · simp [firstQualifyingIndex, hq] at hi
      subst hi
      exact ⟨by simp, by simpa using hq, by omega⟩
    · simp [firstQualifyingIndex, hq] at hi
      obtain ⟨i', hi', rfl⟩ := hi
      obtain ⟨h', hget, hmin⟩ := ih i' hi'
      refine ⟨by simpa using Nat.succ_lt_succ h', by simpa using hget, ?_⟩
      intro j hj hlt
      cases j with
      | zero => simpa using hq
      | succ j' =>
        have hj' : j' < qfs.length := by simpa using Nat.lt_of_succ_lt_succ hj
        have := hmin j' hj' (Nat.lt_of_succ_lt_succ hlt)
        simpa using this

theorem firstQualifyingIndex_eq_some (familyFlags : Nat) :
    ∀ (qfs : List QueueFamilyProperties) (i : Nat) (h : i < qfs.length),
      overlapQualifies familyFlags (qfs.get ⟨i, h⟩) →
      (∀ (j : Nat) (hj : j < qfs.length), j < i →
        ¬ overlapQualifies familyFlags (qfs.get ⟨j, hj⟩)) →
      firstQualifyingIndex familyFlags qfs = some i := by
  intro qfs
  induction qfs with
  | nil => intro i h; simp at h
  | cons qf qfs ih =>
    intro i h hget hmin
    cases i with
    | zero =>
      simp only [List.get] at hget
      simp [firstQualifyingIndex, hget]
    | succ i' =>
      have hq : ¬ overlapQualifies familyFlags qf := by
        have := hmin 0 (by simp) (Nat.succ_pos i')
        simpa using this
      have h' : i' < qfs.length := by simpa using Nat.lt_of_succ_lt_succ h
      have hget' : overlapQualifies familyFlags (qfs.get ⟨i', h'⟩) := by
        simpa using hget
      have hmin' : ∀ (j : Nat) (hj : j < qfs.length), j < i' →
          ¬ overlapQualifies familyFlags (qfs.get ⟨j, hj⟩) := by
        intro j hj hlt
        have := hmin (j + 1) (by simpa using Nat.succ_lt_succ hj)
          (Nat.succ_lt_succ hlt)
        simpa using this
      simp [firstQualifyingIndex, hq, ih i' h' hget' hmin']

theorem findQueueFamily_neg_iff (d : PhysicalDevice) (familyFlags : Nat) :
    findQueueFamily d familyFlags < 0 ↔
      ∀ qf ∈ d.queueFamilies, ¬ overlapQualifies familyFlags qf := by
  rw [findQueueFamily_eq, ← firstQualifyingIndex_none_iff]
  cases h : firstQualifyingIndex familyFlags d.queueFamilies with
  | none => simp
  | some i => simp

theorem selectDevice_some_spec (requirement : Nat) :
    ∀ (ds : List PhysicalDevice) (d : PhysicalDevice) (i : Int),
      selectDevice requirement ds = some (d, i) →
      ∃ pre post, ds = pre ++ d :: post ∧
        (∀ d' ∈ pre, ∀ qf ∈ d'.queueFamilies,
          ¬ overlapQualifies requirement qf) ∧
        findQueueFamily d requirement = i ∧ 0 ≤ i := by
  intro ds
  induction ds with
  | nil => intro d i h; simp [selectDevice] at h
  | cons d0 ds ih =>
    intro d i h
    by_cases h0 : findQueueFamily d0 requirement < 0
    · simp only [selectDevice, if_pos h0] at h
      obtain ⟨pre, post, rfl, hpre, hfam, hnn⟩ := ih d i h
      refine ⟨d0 :: pre, post, rfl, ?_, hfam, hnn⟩
      intro d' hd'
      rcases List.mem_cons.mp hd' with rfl | hd'
      · exact (findQueueFamily_neg_iff d' requirement).mp h0
      · exact hpre d' hd'
    · simp only [selectDevice, if_neg h0] at h
      obtain ⟨rfl, rfl⟩ := Prod.mk.injEq .. ▸ Option.some.injEq .. ▸ h
      exact ⟨[], ds, rfl, by simp, rfl, le_of_not_lt h0⟩

theorem selectDevice_isSome_of_exists (requirement : Nat) :
    ∀ (ds : List PhysicalDevice),
      (∃ d ∈ ds, ∃ qf ∈ d.queueFamilies, overlapQualifies requirement qf) →
      ∃ p, selectDevice requirement ds = some p := by
  intro ds
  induction ds with
  | nil => intro h; simp at h
  | cons d0 ds ih =>
    intro h
    by_cases h0 : findQueueFamily d0 requirement < 0
    · have hnot := (findQueueFamily_neg_iff d0 requirement).mp h0
      obtain ⟨d, hd, qf, hqf, hq⟩ := h
      rcases List.mem_cons.mp hd with rfl | hd
      · exact absurd hq (hnot qf hqf)
      · obtain ⟨p, hp⟩ := ih ⟨d, hd, qf, hqf, hq⟩
        exact ⟨p, by simp [selectDevice, h0, hp]⟩
    · exact ⟨(d0, findQueueFamily d0 requirement), by simp [selectDevice, h0]⟩

/-- C1, counterexample: for the device with the single queue family
`{flags = Graphics, count = 1}` and requirement mask
`Graphics | Transfer = 5`, no descriptor passes the spec's superset test
`(capabilities & requirement) == requirement`, so the claim demands the
sentinel `-1`; the code returns `0` (its test is a nonzero intersection,
not a superset). -/
theorem C1_counterexample :
    (∀ qf ∈ (PhysicalDevice.mk [⟨1, 1⟩]).queueFamilies,
      ¬ specQualifies 5 qf) ∧
    findQueueFamily ⟨[⟨1, 1⟩]⟩ 5 = 0 := by
  constructor
  · decide
  · decide

/-- C1 (amended): for every device and every requirement mask,
`findQueueFamily` returns the index of the first queue-family descriptor
whose count is greater than zero and whose capability bit set has a
NONZERO INTERSECTION with the requirement mask
(`(capabilities & requirement) != 0`), and returns `-1` if no descriptor
qualifies. -/
theorem C1_findQueueFamily_first_fit (d : PhysicalDevice) (requirement : Nat) :
    ((∀ qf ∈ d.queueFamilies, ¬ overlapQualifies requirement qf) →
      findQueueFamily d requirement = -1) ∧
    (∀ (i : Nat) (h : i < d.queueFamilies.length),
      overlapQualifies requirement (d.queueFamilies.get ⟨i, h⟩) →
      (∀ (j : Nat) (hj : j < d.queueFamilies.length), j < i →
        ¬ overlapQualifies requirement (d.queueFamilies.get ⟨j, hj⟩)) →
      findQueueFamily d requirement = i) := by
  constructor
  · intro hnone
    rw [findQueueFamily_eq,
      (firstQualifyingIndex_none_iff requirement d.queueFamilies).mpr hnone]
  · intro i h hget hmin
    rw [findQueueFamily_eq,
      firstQualifyingIndex_eq_some requirement d.queueFamilies i h hget hmin]

/-- C1 witness: the amended theorem applied to a concrete device whose
second family is the first qualifying one. -/
theorem C1_witness :
    findQueueFamily ⟨[⟨8, 1⟩, ⟨5, 1⟩]⟩ 5 = 1 := by
  refine (C1_findQueueFamily_first_fit ⟨[⟨8, 1⟩, ⟨5, 1⟩]⟩ 5).2 1 (by decide)
    (by decide) ?_
  intro j hj hlt
  have hj0 : j = 0 := by omega
  subst hj0
  exact (by decide : ¬ overlapQualifies 5 (⟨8, 1⟩ : QueueFamilyProperties))

/-- C3, counterexample: for the zero requirement mask and the device list
`[A(caps = {}, count = 0), B(caps = {Graphics}, count = 1)]` the claim says
selection returns B; in the code `queueFlags & 0` is `0`, which is falsy,
so no family ever qualifies and selection fails (`none`), and
`findQueueFamily` on B is `-1`. -/
theorem C3_counterexample :
    selectDevice 0 [⟨[⟨0, 0⟩]⟩, ⟨[⟨1, 1⟩]⟩] = none ∧
    findQueueFamily ⟨[⟨1, 1⟩]⟩ 0 = -1 := by
  constructor
  · decide
  · decide

/-- C3 (amended): for the zero requirement mask no queue family ever
qualifies, because the implemented test requires a nonzero bitwise
intersection and `flags & 0 = 0`; hence `findQueueFamily` returns `-1` on
every device and `selectDevice` fails on every device list, counts
notwithstanding. -/
theorem C3_zero_mask_always_fails :
    (∀ d : PhysicalDevice, findQueueFamily d 0 = -1) ∧
    (∀ ds : List PhysicalDevice, selectDevice 0 ds = none) := by
  have hfam : ∀ d : PhysicalDevice, findQueueFamily d 0 = -1 := by
    intro d
    rw [findQueueFamily_eq,
      (firstQualifyingIndex_none_iff 0 d.queueFamilies).mpr ?_]
    intro qf hqf hq
    exact hq.2 (by simp)
  refine ⟨hfam, ?_⟩
  intro ds
  induction ds with
  | nil => rfl
  | cons d ds ih => simp [selectDevice, hfam d, ih]

/-- C5: for the empty device list and any requirement mask, selection
fails immediately: `selectDevice` returns `none`,
`findOptimalPhysicalDevice` returns `none`, and `getPhysicalDevice`
throws (the `deviceCount == 0` check at Main.cpp line 153). -/
theorem C5_empty_devices_fail (requirement : Nat) :
    selectDevice requirement [] = none ∧
    findOptimalPhysicalDevice [] = none ∧
    getPhysicalDevice [] = .error .NoGPUFound := by
  exact ⟨rfl, rfl, rfl⟩

/-- C6: `findQueueFamily` on a device whose queue-family list is empty
returns `-1`, for every requirement mask. -/
theorem C6_empty_families (requirement : Nat) :
    findQueueFamily ⟨[]⟩ requirement = -1 := rfl

/-- C7: device selection is deterministic and idempotent: two calls on
identical device lists and identical requirement masks (unchanged driver
state) return identical results, both for `selectDevice` and for the
bootstrap-level `getPhysicalDevice`. -/
theorem C7_selection_deterministic
    (ds₁ ds₂ : List PhysicalDevice) (req₁ req₂ : Nat)
    (hds : ds₁ = ds₂) (hreq : req₁ = req₂) :
    selectDevice req₁ ds₁ = selectDevice req₂ ds₂ ∧
    getPhysicalDevice ds₁ = getPhysicalDevice ds₂ := by
  subst hds; subst hreq; exact ⟨rfl, rfl⟩

/-- C7 witness: the determinism theorem at a concrete device list and
requirement. -/
theorem C7_witness :
    selectDevice 5 [⟨[⟨5, 1⟩]⟩] = selectDevice 5 [⟨[⟨5, 1⟩]⟩] ∧
    getPhysicalDevice [⟨[⟨5, 1⟩]⟩] = getPhysicalDevice [⟨[⟨5, 1⟩]⟩] :=
  C7_selection_deterministic [⟨[⟨5, 1⟩]⟩] [⟨[⟨5, 1⟩]⟩] 5 5 rfl rfl

/-- C9: the code can pass the sentinel `-1` as the queue-family index of
device creation.  Failing input: a device whose only queue family is
`{flags = Transfer, count = 1}`.  `isPhyiscalDeviceSuitable` accepts it
(`4 & (Graphics|Transfer) = 4 ≠ 0`), yet the index recomputed by
`createLogicalDevice` with mask `Graphics` alone is `-1`, which line 171
passes as `queueFamilyIndex` to `vkCreateDevice`. -/
theorem C9_sentinel_passed :
    isPhyiscalDeviceSuitable ⟨[⟨4, 1⟩]⟩ = true ∧
    createLogicalDevice ⟨[⟨4, 1⟩]⟩ = -1 := by
  constructor
  · decide
  · decide

/-- C10: for every device and requirement mask, `findQueueFamily` returns
either `-1` (and then no family qualifies under the implemented test) or
an index `i` with `0 ≤ i <` the number of families, such that family `i`
has positive count and nonzero capability intersection with the mask and
no family at a smaller index does. -/
theorem C10_findQueueFamily_sound (d : PhysicalDevice) (requirement : Nat) :
    (findQueueFamily d requirement = -1 ∧
      ∀ qf ∈ d.queueFamilies, ¬ overlapQualifies requirement qf) ∨
    (∃ (i : Nat) (h : i < d.queueFamilies.length),
      findQueueFamily d requirement = i ∧
      overlapQualifies requirement (d.queueFamilies.get ⟨i, h⟩) ∧
      ∀ (j : Nat) (hj : j < d.queueFamilies.length), j < i →
        ¬ overlapQualifies requirement (d.queueFamilies.get ⟨j, hj⟩)) := by
  cases h : firstQualifyingIndex requirement d.queueFamilies with
  | none =>
    left
    refine ⟨?_, (firstQualifyingIndex_none_iff requirement d.queueFamilies).mp h⟩
    rw [findQueueFamily_eq, h]
  | some i =>
    right
    obtain ⟨hlen, hget, hmin⟩ :=
      firstQualifyingIndex_some requirement d.queueFamilies i h
    refine ⟨i, hlen, ?_, hget, hmin⟩
    rw [findQueueFamily_eq, h]

/-- C10 witness: the characterisation at a concrete device and mask. -/
theorem C10_witness :
    (findQueueFamily ⟨[⟨2, 1⟩, ⟨5, 1⟩]⟩ 5 = -1 ∧
      ∀ qf ∈ (PhysicalDevice.mk [⟨2, 1⟩, ⟨5, 1⟩]).queueFamilies,
        ¬ overlapQualifies 5 qf) ∨
    (∃ (i : Nat)
        (h : i < (PhysicalDevice.mk [⟨2, 1⟩, ⟨5, 1⟩]).queueFamilies.length),
      findQueueFamily ⟨[⟨2, 1⟩, ⟨5, 1⟩]⟩ 5 = i ∧
      overlapQualifies 5
        ((PhysicalDevice.mk [⟨2, 1⟩, ⟨5, 1⟩]).queueFamilies.get ⟨i, h⟩) ∧
      ∀ (j : Nat)
        (hj : j < (PhysicalDevice.mk [⟨2, 1⟩, ⟨5, 1⟩]).queueFamilies.length),
        j < i →
        ¬ overlapQualifies 5
          ((PhysicalDevice.mk [⟨2, 1⟩, ⟨5, 1⟩]).queueFamilies.get ⟨j, hj⟩)) :=
  C10_findQueueFamily_sound ⟨[⟨2, 1⟩, ⟨5, 1⟩]⟩ 5

/-- C2, counterexample: device list `[A(caps = {Graphics}),
B(caps = {Graphics, Transfer})]`, requirement `Graphics | Transfer = 5`.
B is the only device with a queue family satisfying the requirement in the
spec's sense (capability superset), so the claim demands B; the code
selects A, whose family merely intersects the mask. -/
theorem C2_counterexample :
    (∀ qf ∈ (PhysicalDevice.mk [⟨1, 1⟩]).queueFamilies,
      ¬ specQualifies 5 qf) ∧
    (∃ qf ∈ (PhysicalDevice.mk [⟨5, 1⟩]).queueFamilies,
      specQualifies 5 qf) ∧
    selectDevice 5 [⟨[⟨1, 1⟩]⟩, ⟨[⟨5, 1⟩]⟩] = some (⟨[⟨1, 1⟩]⟩, 0) := by
  refine ⟨by decide, by decide, by decide⟩

/-- C2 (amended): `selectDevice` returns the first device in enumeration
order having a queue family that passes the IMPLEMENTED test (count > 0
and nonzero capability intersection with the requirement), together with
the first such family index (which is nonnegative), examining no earlier
device that has a qualifying family; whenever some device qualifies a
device is returned; and in the concrete scenario
`[A(caps = {Compute}), B(caps = {Graphics, Transfer}), C(caps = {Graphics})]`
with requirement `{Graphics, Transfer}` it selects B with family index 0
(A is skipped because Compute ∩ {Graphics, Transfer} = ∅). -/
theorem C2_first_fit_selection :
    (∀ (requirement : Nat) (ds : List PhysicalDevice)
        (d : PhysicalDevice) (i : Int),
      selectDevice requirement ds = some (d, i) →
      ∃ pre post, ds = pre ++ d :: post ∧
        (∀ d' ∈ pre, ∀ qf ∈ d'.queueFamilies,
          ¬ overlapQualifies requirement qf) ∧
        findQueueFamily d requirement = i ∧ 0 ≤ i) ∧
    (∀ (requirement : Nat) (ds : List PhysicalDevice),
      (∃ d ∈ ds, ∃ qf ∈ d.queueFamilies, overlapQualifies requirement qf) →
      ∃ p, selectDevice requirement ds = some p) ∧
    selectDevice 5 [⟨[⟨2, 1⟩]⟩, ⟨[⟨5, 1⟩]⟩, ⟨[⟨1, 1⟩]⟩] =
      some (⟨[⟨5, 1⟩]⟩, 0) := by
  refine ⟨?_, ?_, by decide⟩
  · intro requirement ds d i h
    exact selectDevice_some_spec requirement ds d i h
  · intro requirement ds h
    exact selectDevice_isSome_of_exists requirement ds h

/-- C2 witness: the completeness component of the amended theorem at a
concrete one-device list. -/
theorem C2_witness :
    ∃ p, selectDevice 5 [⟨[⟨5, 1⟩]⟩] = some p :=
  C2_first_fit_selection.2.1 5 [⟨[⟨5, 1⟩]⟩]
    ⟨⟨[⟨5, 1⟩]⟩, by decide, ⟨5, 1⟩, by decide, by decide⟩

/-- C4, counterexample: device list `[A(caps = {Graphics})]`, requirement
`Graphics | Transfer = 5`.  No device/queue-family combination satisfies
the requirement in the spec's sense (capability superset), so the claim
demands failure; the code returns a handle to A, because its test is a
nonzero intersection. -/
theorem C4_counterexample :
    (∀ qf ∈ (PhysicalDevice.mk [⟨1, 1⟩]).queueFamilies,
      ¬ specQualifies 5 qf) ∧
    selectDevice 5 [⟨[⟨1, 1⟩]⟩] = some (⟨[⟨1, 1⟩]⟩, 0) := by
  refine ⟨by decide, by decide⟩

/-- C4 (amended): whenever no device/queue-family combination passes the
IMPLEMENTED test (count > 0 and nonzero capability intersection with the
requirement), `selectDevice` reports failure and never a handle; at the
bootstrap level, for a non-empty device list where no combination passes
the implemented test at the hard-coded mask `Graphics | Transfer`,
`getPhysicalDevice` throws the no-suitable-device error (Main.cpp
line 161), aborting the sequence. -/
theorem C4_no_qualifier_fails :
    (∀ (requirement : Nat) (ds : List PhysicalDevice),
      (∀ d ∈ ds, ∀ qf ∈ d.queueFamilies,
        ¬ overlapQualifies requirement qf) →
      selectDevice requirement ds = none) ∧
    (∀ ds : List PhysicalDevice, ds ≠ [] →
      (∀ d ∈ ds, ∀ qf ∈ d.queueFamilies,
        ¬ overlapQualifies (VK_QUEUE_GRAPHICS_BIT ||| VK_QUEUE_TRANSFER_BIT) qf) →
      getPhysicalDevice ds = .error .NoSuitableDevice) := by
  have hsel : ∀ (requirement : Nat) (ds : List PhysicalDevice),
      (∀ d ∈ ds, ∀ qf ∈ d.queueFamilies,
        ¬ overlapQualifies requirement qf) →
      selectDevice requirement ds = none := by
    intro requirement ds
    induction ds with
    | nil => intro _; rfl
    | cons d0 ds ih =>
      intro h
      have h0 : findQueueFamily d0 requirement < 0 :=
        (findQueueFamily_neg_iff d0 requirement).mpr
          (h d0 (List.mem_cons_self d0 ds))
      simp only [selectDevice, if_pos h0]
      exact ih (fun d hd => h d (List.mem_cons_of_mem d0 hd))
  refine ⟨hsel, ?_⟩
  intro ds hne h
  have hopt : findOptimalPhysicalDevice ds = none := by
    rw [← selectDevice_eq_findOptimal,
      hsel (VK_QUEUE_GRAPHICS_BIT ||| VK_QUEUE_TRANSFER_BIT) ds h]
    rfl
  have hlen : ds.length ≠ 0 := by
    intro h0
    exact hne (List.length_eq_zero.mp h0)
  simp [getPhysicalDevice, hlen, hopt]

/-- C4 witness: the bootstrap component of the amended theorem at a
concrete one-device list whose sole family has no required capability. -/
theorem C4_witness :
    getPhysicalDevice [⟨[⟨8, 1⟩]⟩] = .error .NoSuitableDevice :=
  C4_no_qualifier_fails.2 [⟨[⟨8, 1⟩]⟩] (by decide) (by decide)

/-- C8, counterexample: the driver world where everything succeeds but no
GPU is enumerated.  The bootstrap aborts with the no-GPU error after the
window, instance and debug callback have been acquired; the exception
propagates past `cleanup` to the catch block in `main` (Main.cpp lines
340–343), so the acquired instance is never released — contradicting the
claim that every exit path releases all partially acquired resources. -/
theorem C8_counterexample :
    (runProgram ⟨true, true, true, [], true⟩).1 =
      .error .NoGPUFound ∧
    (runProgram ⟨true, true, true, [], true⟩).2 =
      [.AcquireWindow, .AcquireInstance, .AcquireCallback] ∧
    ResourceEvent.ReleaseInstance ∉
      (runProgram ⟨true, true, true, [], true⟩).2 := by
  refine ⟨rfl, by decide, by decide⟩

/-- C8 (amended): on the normal exit path (every bootstrap step succeeds)
the resources are released by `cleanup`, in strict reverse-acquisition
order (device, then callback, then instance, then window); but on any
initialization failure the thrown error propagates to `main` and NO
release occurs — partially acquired resources are not released on early
aborts. -/
theorem C8_cleanup_only_on_success (w : DriverWorld) :
    ((runProgram w).1 = .ok () →
      (runProgram w).2 =
        [.AcquireWindow, .AcquireInstance, .AcquireCallback, .AcquireDevice,
         .ReleaseDevice, .ReleaseCallback, .ReleaseInstance,
         .ReleaseWindow]) ∧
    (∀ e : BootstrapError, (runProgram w).1 = .error e →
      ∀ ev ∈ (runProgram w).2, ev.isRelease = false) := by
  obtain ⟨v, inst, cb, ds, dev⟩ := w
  cases hgp : getPhysicalDevice ds <;>
    cases v <;> cases inst <;> cases cb <;> cases dev <;>
      simp [runProgram, createInstance, createDebugCallback,
        createLogicalDeviceStep, enableValidationLayers, cleanupTrace, hgp,
        ResourceEvent.isRelease]

/-- C8 witness: the amended theorem's success component at a concrete
world where every step succeeds. -/
theorem C8_witness :
    (runProgram ⟨true, true, true, [⟨[⟨5, 1⟩]⟩], true⟩).2 =
      [.AcquireWindow, .AcquireInstance, .AcquireCallback, .AcquireDevice,
       .ReleaseDevice, .ReleaseCallback, .ReleaseInstance, .ReleaseWindow] :=
  (C8_cleanup_only_on_success ⟨true, true, true, [⟨[⟨5, 1⟩]⟩], true⟩).1 rfl
